import Mathlib

/-
  Verification development for the Ryobi garage-door component
  (`ryobiapi.py`: classes `RyobiApi` and `RyobiWssCtrl`).

  The Python source is embedded shallowly:
  * JSON values become the inductive type `Json`; Python indexing
    `d[k]`, membership `k in d` and truthiness are modelled by
    `Json.getItem`, `Json.hasKey` and `Json.truthy`, each raising the
    corresponding Python exception through `Except PyErr`.
  * The instance state of `RyobiApi` / its subclass `RyobiWssCtrl` is the
    record `CtrlState` (one record for both classes, since the subclass
    shares the superclass fields).  Methods become functions
    `CtrlState -> ... -> Except PyErr (result, CtrlState)`.
  * Network nondeterminism is an explicit environment: `send_http`
    receives the outcome of each HTTP attempt (`HttpAttempt`), and the
    WebSocket layer receives a `ConnectEnv` / `PublishEnv` describing
    setup exceptions, thread liveness, background-thread callback writes
    to `socket_state`, and send-time failures.
  * Wall-clock sleeps are modelled by iteration counts only; observable
    side effects of the socket layer are recorded as a `WssEvent` trace.
-/

namespace Ryobi

/-- Python errors that the embedded code can raise. -/
inductive PyErr where
  | keyError (key : String)
  | typeError
  | attributeError
deriving DecidableEq, Repr

/-- JSON values, as produced by `resp.json()` / consumed by the client. -/
inductive Json where
  | null
  | bool (b : Bool)
  | str (s : String)
  | num (n : Int)
  | arr (elems : List Json)
  | obj (fields : List (String × Json))
deriving Repr

/-- First-match lookup in a JSON object field list (Python dict lookup;
dict literals in this code base have distinct keys). -/
def objLookup : List (String × Json) → String → Option Json
  | [], _ => none
  | (k, v) :: fs, key => if k = key then some v else objLookup fs key

/-- Python `d[k]`: `KeyError` when the key is absent, `TypeError` when the
value is not a dict. -/
def Json.getItem : Json → String → Except PyErr Json
  | .obj fs, k =>
    match objLookup fs k with
    | some v => .ok v
    | none => .error (.keyError k)
  | _, _ => .error .typeError

/-- Substring test on character lists (Python `needle in haystack` for
strings). -/
def listContainsSub (needle : List Char) : List Char → Bool
  | [] => needle.isEmpty
  | c :: rest => needle.isPrefixOf (c :: rest) || listContainsSub needle rest

/-- Python `k in j`: key membership for dicts, element membership for
lists, substring for strings, `TypeError` otherwise. -/
def Json.hasKey : Json → String → Except PyErr Bool
  | .obj fs, k => .ok (objLookup fs k).isSome
  | .arr xs, k =>
    .ok (xs.any fun j => match j with | .str s => s = k | _ => false)
  | .str s, k => .ok (listContainsSub k.data s.data)
  | _, _ => .error .typeError

/-- Python truthiness of a JSON value (`if resp:`). -/
def Json.truthy : Json → Bool
  | .null => false
  | .bool b => b
  | .str s => !(s = "" : Bool)
  | .num n => !(n = 0 : Bool)
  | .arr xs => !xs.isEmpty
  | .obj fs => !fs.isEmpty

/-- Python `for x in j`: list elements, dict keys, string characters;
`TypeError` otherwise. -/
def Json.iterElems : Json → Except PyErr (List Json)
  | .arr xs => .ok xs
  | .obj fs => .ok (fs.map fun p => .str p.1)
  | .str s => .ok (s.data.map fun c => .str (String.mk [c]))
  | _ => .error .typeError

/-- Python truthiness of an attribute that is either `None` or a JSON
value (`if not self.api_key:`). -/
def optTruthy : Option Json → Bool
  | none => false
  | some j => j.truthy

/-- Retry bound `N_RETRY` from the source. -/
def N_RETRY : Nat := 6

-- Socket-state constants from the source.
def SOCK_CONNECTED : String := "Open"
def SOCK_CLOSE : String := "Close"
def SOCK_ERROR : String := "Error"

/-- Outcome of one HTTP attempt, supplied by the environment: either a
server response with a status code and parsed JSON body, or a
network-level error (`httpx.RequestError`, which covers timeouts and
connection failures). -/
inductive HttpAttempt where
  | resp (status : Nat) (body : Json)
  | netError
deriving Repr

/-- The dict returned by `send_http` on HTTP 401 (authentication
failure, never retried). -/
def fail401 : Json :=
  .obj [("msg", .str "error"),
        ("details", .str "Invalid login credentials HTTP 401 Unothorized. Skipped retry")]

/-- The dict returned by `send_http` after exhausting all retries. -/
def failRetries : Json :=
  .obj [("msg", .str "error"),
        ("details", .str ("Failed after " ++ toString N_RETRY ++ " retry"))]

/-- The retry loop of `RyobiApi.send_http`: `attempt` is the index of the
next attempt, the second argument the number of attempts left.  Returns
the value `send_http` returns together with the number of attempts
performed.  (URL, params, headers and method only shape the request, not
the control flow, and are elided.) -/
def sendHttpAux (env : Nat → HttpAttempt) : Nat → Nat → Json × Nat
  | attempt, 0 => (failRetries, attempt)
  | attempt, fuel + 1 =>
    match env attempt with
    | .resp 200 body => (body, attempt + 1)
    | .resp 401 _ => (fail401, attempt + 1)
    | _ => sendHttpAux env (attempt + 1) fuel

/-- `RyobiApi.send_http`: up to `N_RETRY` attempts; 200 returns the
parsed body at once, 401 returns `fail401` at once, anything else (bad
status or network error) is retried. -/
def send_http (env : Nat → HttpAttempt) : Json × Nat :=
  sendHttpAux env 0 N_RETRY

/-- One device dict as built by `RyobiApi.get_devices`. -/
structure Device where
  username : String
  password : String
  api_key : Option Json
  u_id : Option Json
  type_ids : Json
  d_id : Json
  name : Json
  version : Json
  description : Json
  last_seen : Json
deriving Repr

/-- Instance state shared by `RyobiApi` and its subclass `RyobiWssCtrl`.
`hasWs` / `hasThread` record whether `self.ws` / `self.wst` hold an
object rather than `None`. -/
structure CtrlState where
  username : String
  password : String
  api_key : Option Json
  user_id : Option Json
  devices : List Device
  socket_state : String
  sent_counter : Nat
  hasWs : Bool
  hasThread : Bool
deriving Repr

/-- `RyobiApi.__init__` (the socket fields, set only by the subclass
initializer, are given the subclass defaults so one record serves both
classes). -/
def RyobiApi_init (username password : String) : CtrlState :=
  { username := username
    password := password
    api_key := none
    user_id := none
    devices := []
    socket_state := SOCK_CLOSE
    sent_counter := 0
    hasWs := false
    hasThread := false }

/-- `RyobiWssCtrl.__init__`: runs the superclass initializer, then sets
the socket fields and overwrites `api_key` with the given value.  The
`u_id` and `d_id` parameters are accepted but never stored. -/
def RyobiWssCtrl_init (username password : String) (api_key : Option Json)
    (u_id d_id : Json) : CtrlState :=
  { RyobiApi_init username password with
      socket_state := SOCK_CLOSE
      sent_counter := 0
      api_key := api_key }

/-- The response-parsing part of `RyobiApi.login` (everything after
`resp = await self.send_http(...)`).  The source indexes
`resp["result"]` repeatedly; the value is the same each time, so it is
bound once.  Mutations made before an exception is raised are lost in
the `.error` case, which no claim observes. -/
def loginParse (st : CtrlState) (resp : Json) : Except PyErr (Bool × CtrlState) :=
  match resp.getItem "result" with
  | .error e => .error e
  | .ok result =>
    match result.hasKey "_id" with
    | .error e => .error e
    | .ok false => .ok (false, st)
    | .ok true =>
      match result.getItem "_id" with
      | .error e => .error e
      | .ok uid =>
        let st1 := { st with user_id := some uid }
        match result.getItem "auth" with
        | .error e => .error e
        | .ok auth =>
          match auth.hasKey "apikey" with
          | .error e => .error e
          | .ok false => .ok (false, st1)
          | .ok true =>
            match auth.getItem "apiKey" with
            | .error e => .error e
            | .ok key => .ok (true, { st1 with api_key := some key })

/-- `RyobiApi.login`: sends the HTTP request, then parses the response. -/
def login (st : CtrlState) (env : Nat → HttpAttempt) : Except PyErr (Bool × CtrlState) :=
  loginParse st (send_http env).1

/-- The body of the `for result in resp["result"]` loop in
`RyobiApi.get_devices`: build one device dict from one result item,
reading the metadata fields in source order. -/
def buildDevice (st : CtrlState) (result : Json) : Except PyErr Device := do
  let type_ids ← result.getItem "deviceTypeIds"
  let d_id ← result.getItem "varName"
  let name ← (← result.getItem "metaData").getItem "name"
  let version ← (← result.getItem "metaData").getItem "version"
  let description ← (← result.getItem "metaData").getItem "description"
  let last_seen ← (← (← result.getItem "metaData").getItem "sys").getItem "lastSeen"
  .ok { username := st.username
        password := st.password
        api_key := st.api_key
        u_id := st.user_id
        type_ids := type_ids
        d_id := d_id
        name := name
        version := version
        description := description
        last_seen := last_seen }

/-- The `get_devices` loop: each built device is appended to the
persistent `self.devices` list. -/
def appendDevices (st : CtrlState) : List Json → Except PyErr CtrlState
  | [] => .ok st
  | r :: rs =>
    match buildDevice st r with
    | .error e => .error e
    | .ok d => appendDevices { st with devices := st.devices ++ [d] } rs

/-- `RyobiApi.get_devices`: sends the HTTP request; a truthy response is
iterated over `resp["result"]`, appending one device per item to
`self.devices`, and returns the whole accumulated list; a falsy response
returns the empty list. -/
def get_devices (st : CtrlState) (env : Nat → HttpAttempt) :
    Except PyErr (List Device × CtrlState) :=
  if ((send_http env).1).truthy then
    match ((send_http env).1).getItem "result" with
    | .error e => .error e
    | .ok items =>
      match items.iterElems with
      | .error e => .error e
      | .ok xs =>
        match appendDevices st xs with
        | .error e => .error e
        | .ok st1 => .ok (st1.devices, st1)
  else .ok ([], st)

/-- Observable side effects of the WebSocket layer, recorded as a trace:
creating the socket object, sending the authentication frame, sending
the subscription frame, starting the background read-loop thread, one
iteration of the `connect_wss` poll loop, the forced close in
`publish_wss`, and one `ws.send` call. -/
inductive WssEvent where
  | openSocket
  | sendAuth
  | sendSubscribe
  | startThread
  | poll
  | forceClose
  | sendTry
deriving DecidableEq, Repr

/-- Socket callback `on_open` (runs on the background thread). -/
def on_open (st : CtrlState) : CtrlState := { st with socket_state := SOCK_CONNECTED }

/-- Socket callback `on_close`. -/
def on_close (st : CtrlState) : CtrlState := { st with socket_state := SOCK_CLOSE }

/-- Socket callback `on_error`. -/
def on_error (st : CtrlState) : CtrlState := { st with socket_state := SOCK_ERROR }

/-- Socket callback `on_message`: resets the consecutive-send counter.
(The parsed message itself is logged and otherwise unused: dispatch is an
explicit TODO in the source.) -/
def on_message (st : CtrlState) (msg : Json) : CtrlState := { st with sent_counter := 0 }

/-- `RyobiWssCtrl.check_credentials`: log in when `self.api_key` is
falsy, otherwise succeed at once. -/
def check_credentials (st : CtrlState) (http : Nat → HttpAttempt) :
    Except PyErr (Bool × CtrlState) :=
  if optTruthy st.api_key then .ok (true, st) else login st http

/-- Environment for one `connect_wss` call.  `setupFail = some k`
(`k < 3`) means a `websocket.WebSocketException` is raised after `k` of
the three socket-setup operations (create `WebSocketApp`,
`authenticate()`, `subscribe()`) have completed; any other value means
the setup runs to completion.  `threadAlive` is the `wst.is_alive()`
result after the thread is started.  `cb i` is an update to
`socket_state` performed by a background-thread callback and visible
before the i-th iteration of the poll loop (`none`: no callback fired). -/
structure ConnectEnv where
  http : Nat → HttpAttempt
  setupFail : Option Nat
  threadAlive : Bool
  cb : Nat → Option String

/-- Modelled from the spec: `authenticate()` and `subscribe()` are called
in `open_wss_thread` but their bodies are not part of the sources; per the
spec they synchronously send one authentication frame and one
subscription frame over the socket, which the model records as the
events `sendAuth` and `sendSubscribe`. -/
def setupOps : List WssEvent := [.openSocket, .sendAuth, .sendSubscribe]

/-- `RyobiWssCtrl.open_wss_thread`: ensure credentials; create the
socket object, send the authentication and subscription frames, start
the background thread and check it is alive.  A
`websocket.WebSocketException` anywhere in the `try` block forces
`socket_state` to `SOCK_ERROR` and returns false. -/
def open_wss_thread (env : ConnectEnv) (st : CtrlState) :
    Except PyErr (Bool × CtrlState × List WssEvent) :=
  match check_credentials st env.http with
  | .error e => .error e
  | .ok (ok, st1) =>
    if ok then
      match env.setupFail with
      | some 0 => .ok (false, { st1 with socket_state := SOCK_ERROR }, setupOps.take 0)
      | some 1 =>
        .ok (false, { st1 with hasWs := true, socket_state := SOCK_ERROR }, setupOps.take 1)
      | some 2 =>
        .ok (false, { st1 with hasWs := true, socket_state := SOCK_ERROR }, setupOps.take 2)
      | _ =>
        let st2 := { st1 with hasWs := true, hasThread := true }
        let evs := setupOps ++ [WssEvent.startThread]
        if env.threadAlive then .ok (true, st2, evs) else .ok (false, st2, evs)
    else .ok (false, st1, [])

/-- The `socket_state` value visible at iteration `i` of the poll loop:
a background-thread callback may have updated the field since the last
look (`cb i = some s`), or left it alone (`none`). -/
def pollStep (cb : Nat → Option String) (i : Nat) (st : CtrlState) : CtrlState :=
  match cb i with
  | some s => { st with socket_state := s }
  | none => st

/-- The `for i in range(15)` poll loop of `connect_wss`: the loop exits
with true as soon as the state reads `SOCK_CONNECTED`, and with false
after 15 iterations.  One `poll` event is recorded per iteration
entered. -/
def pollLoop (cb : Nat → Option String) : Nat → Nat → CtrlState →
    Bool × CtrlState × List WssEvent
  | _, 0, st => (false, st, [])
  | i, fuel + 1, st =>
    if (pollStep cb i st).socket_state = SOCK_CONNECTED then
      (true, pollStep cb i st, [.poll])
    else
      ((pollLoop cb (i + 1) fuel (pollStep cb i st)).1,
       (pollLoop cb (i + 1) fuel (pollStep cb i st)).2.1,
       .poll :: (pollLoop cb (i + 1) fuel (pollStep cb i st)).2.2)

/-- `RyobiWssCtrl.connect_wss`: immediate success when already
connected; otherwise open the socket and thread, then poll for the
`Connected` transition for at most 15 iterations (of 0.5 s each in the
source; the model keeps only the iteration count). -/
def connect_wss (env : ConnectEnv) (st : CtrlState) :
    Except PyErr (Bool × CtrlState × List WssEvent) :=
  if st.socket_state = SOCK_CONNECTED then .ok (true, st, [])
  else
    match open_wss_thread env st with
    | .error e => .error e
    | .ok (ok, st1, evs1) =>
      if ok then
        .ok ((pollLoop env.cb 0 15 st1).1, (pollLoop env.cb 0 15 st1).2.1,
             evs1 ++ (pollLoop env.cb 0 15 st1).2.2)
      else .ok (false, st1, evs1)

/-- Environment for one `publish_wss` call: `sendClosed i` says whether
the `ws.send` on attempt `i` raises
`websocket.WebSocketConnectionClosedException`; `conn i` is the
environment of the `connect_wss` call made on attempt `i` (if any). -/
structure PublishEnv where
  sendClosed : Nat → Bool
  conn : Nat → ConnectEnv

/-- The `for attempt in range(N_RETRY)` loop of `publish_wss`: when the
state reads connected, try `ws.send` (success increments
`sent_counter` and returns true, a closed-connection error sets the
state to `SOCK_CLOSE` and retries); otherwise call `connect_wss`
(result ignored) and retry.  Exhaustion returns false. -/
def publishLoop (env : PublishEnv) : Nat → Nat → CtrlState →
    Except PyErr (Bool × CtrlState × List WssEvent)
  | _, 0, st => .ok (false, st, [])
  | attempt, fuel + 1, st =>
    if st.socket_state = SOCK_CONNECTED then
      if st.hasWs then
        if env.sendClosed attempt then
          match publishLoop env (attempt + 1) fuel { st with socket_state := SOCK_CLOSE } with
          | .error e => .error e
          | .ok (b, st2, evs) => .ok (b, st2, .sendTry :: evs)
        else
          .ok (true, { st with sent_counter := st.sent_counter + 1 }, [.sendTry])
      else .error .attributeError
    else
      match connect_wss (env.conn attempt) st with
      | .error e => .error e
      | .ok (_, st1, cevs) =>
        match publishLoop env (attempt + 1) fuel st1 with
        | .error e => .error e
        | .ok (b, st2, evs) => .ok (b, st2, cevs ++ evs)

/-- `RyobiWssCtrl.publish_wss`: when `sent_counter` has reached 5 the
link is treated as dead — the counter is reset, `ws.close()` is called
and `socket_state` is set to `SOCK_CLOSE` — and only then does the retry
loop run.  (The serialized message itself does not influence control
flow and is elided.) -/
def publish_wss (env : PublishEnv) (st : CtrlState) :
    Except PyErr (Bool × CtrlState × List WssEvent) :=
  if 5 ≤ st.sent_counter then
    if st.hasWs then
      match publishLoop env 0 N_RETRY
          { st with sent_counter := 0, socket_state := SOCK_CLOSE } with
      | .error e => .error e
      | .ok (b, st2, evs) => .ok (b, st2, .forceClose :: evs)
    else .error .attributeError
  else publishLoop env 0 N_RETRY st

/-- Whether event `e` occurs strictly before the first `startThread`
event of the trace (false when no `startThread` occurs). -/
def beforeThreadStart (e : WssEvent) : List WssEvent → Bool
  | [] => false
  | x :: xs =>
    if x = WssEvent.startThread then false
    else (x = e : Bool) || beforeThreadStart e xs

/-- Attempts that `send_http` retries: any response status other than
200 and 401, and any network-level error. -/
def retryable : HttpAttempt → Bool
  | .resp s _ => !(s = 200 : Bool) && !(s = 401 : Bool)
  | .netError => true

/-- Devices built from the items of one response, all with the same
(unchanging) credentials, in order. -/
def builtDevices (st : CtrlState) : List Json → Except PyErr (List Device)
  | [] => .ok []
  | r :: rs =>
    match buildDevice st r with
    | .error e => .error e
    | .ok d =>
      match builtDevices st rs with
      | .error e => .error e
      | .ok ds => .ok (d :: ds)

-- Concrete sample values used by the witness theorems below.

def demoState : CtrlState := RyobiApi_init "u" "p"

def c1Body : Json :=
  .obj [("result", .obj [("_id", .str "u1"), ("auth", .obj [("apiKey", .str "k1")])])]

def c2Body : Json :=
  .obj [("result", .obj [("_id", .str "u1"), ("auth", .obj [])])]

def keyedState : CtrlState := RyobiWssCtrl_init "u" "p" (some (.str "k")) .null .null

def connectedState : CtrlState :=
  { keyedState with socket_state := SOCK_CONNECTED, hasWs := true }

def fullCounterState : CtrlState := { connectedState with sent_counter := 5 }

def demoConnEnv : ConnectEnv :=
  { http := fun _ => .netError
    setupFail := none
    threadAlive := true
    cb := fun i => if i = 0 then some SOCK_CONNECTED else none }

def timeoutConnEnv : ConnectEnv := { demoConnEnv with cb := fun _ => none }

def errorConnEnv : ConnectEnv := { demoConnEnv with setupFail := some 1 }

def demoPubEnv : PublishEnv :=
  { sendClosed := fun _ => false, conn := fun _ => demoConnEnv }

def demoItem : Json :=
  .obj [("deviceTypeIds", .arr [.str "gdo"]),
        ("varName", .str "d1"),
        ("metaData", .obj [("name", .str "Garage"),
                           ("version", .str "1.0"),
                           ("description", .str "GDO"),
                           ("sys", .obj [("lastSeen", .num 100)])])]

def demoDeviceBody : Json := .obj [("result", .arr [demoItem])]

def demoDevice : Device :=
  { username := "u"
    password := "p"
    api_key := none
    u_id := none
    type_ids := .arr [.str "gdo"]
    d_id := .str "d1"
    name := .str "Garage"
    version := .str "1.0"
    description := .str "GDO"
    last_seen := .num 100 }

-- Helper lemmas.

/-- The two failure dicts of `send_http` are distinguishable (their
`details` entries differ). -/
theorem failRetries_ne_fail401 : failRetries ≠ fail401 := by
  intro h
  have h2 := congrArg (fun j => Json.getItem j "details") h
  simp [failRetries, fail401, Json.getItem, objLookup] at h2
  exact absurd h2 (by decide)

/-- When every attempt in the window is retryable, the `send_http` loop
burns all its fuel and returns the generic failure. -/
theorem sendHttpAux_all_retryable (env : Nat → HttpAttempt) :
    ∀ fuel a, (∀ i, a ≤ i → i < a + fuel → retryable (env i) = true) →
      sendHttpAux env a fuel = (failRetries, a + fuel)
  | 0, a, _ => by simp [sendHttpAux]
  | fuel + 1, a, h => by
    have hr : retryable (env a) = true := h a le_rfl (by omega)
    unfold sendHttpAux
    split
    · next heq => rw [heq] at hr; simp [retryable] at hr
    · next heq => rw [heq] at hr; simp [retryable] at hr
    · have := sendHttpAux_all_retryable env fuel (a + 1)
        (fun i h1 h2 => h i (by omega) (by omega))
      rw [this]; congr 1; omega

/-- When the attempts before index `k` are retryable and attempt `k` is
a 401, the `send_http` loop stops right there with the
authentication-failure dict, after `k + 1` attempts. -/
theorem sendHttpAux_reaches_401 (env : Nat → HttpAttempt) (body : Json) :
    ∀ k fuel a, k < fuel → (∀ j, a ≤ j → j < a + k → retryable (env j) = true) →
      env (a + k) = .resp 401 body →
      sendHttpAux env a fuel = (fail401, a + k + 1)
  | 0, fuel + 1, a, _, _, h401 => by
    unfold sendHttpAux
    rw [show a + 0 = a from rfl] at h401
    rw [h401]
  | k + 1, fuel + 1, a, hk, hr, h401 => by
    have hra : retryable (env a) = true := hr a le_rfl (by omega)
    unfold sendHttpAux
    split
    · next heq => rw [heq] at hra; simp [retryable] at hra
    · next heq => rw [heq] at hra; simp [retryable] at hra
    · have := sendHttpAux_reaches_401 env body k fuel (a + 1) (by omega)
        (fun j h1 h2 => hr j (by omega) (by omega))
        (by rw [show a + 1 + k = a + (k + 1) from by omega]; exact h401)
      rw [this]; congr 1; omega

/-- A callback write that is not `SOCK_CONNECTED` cannot make the state
read `SOCK_CONNECTED`. -/
theorem pollStep_ne {cb : Nat → Option String} {i : Nat} {st : CtrlState}
    (hst : st.socket_state ≠ SOCK_CONNECTED)
    (hcb : cb i ≠ some SOCK_CONNECTED) :
    (pollStep cb i st).socket_state ≠ SOCK_CONNECTED := by
  unfold pollStep
  cases hc : cb i with
  | none => simpa using hst
  | some s =>
    simp only
    intro he
    exact hcb (by rw [hc, he])

/-- The poll loop enters at most `fuel` iterations. -/
theorem pollLoop_count (cb : Nat → Option String) :
    ∀ fuel i st, ((pollLoop cb i fuel st).2.2).count WssEvent.poll ≤ fuel
  | 0, i, st => by simp [pollLoop]
  | fuel + 1, i, st => by
    unfold pollLoop
    split
    · simp
    · simp [List.count_cons]
      have := pollLoop_count cb fuel (i + 1) (pollStep cb i st)
      omega

/-- If no callback in the window reports `SOCK_CONNECTED`, the poll loop
times out with false. -/
theorem pollLoop_timeout (cb : Nat → Option String) :
    ∀ fuel i st, st.socket_state ≠ SOCK_CONNECTED →
      (∀ j, i ≤ j → j < i + fuel → cb j ≠ some SOCK_CONNECTED) →
      (pollLoop cb i fuel st).1 = false
  | 0, _, _, _, _ => by simp [pollLoop]
  | fuel + 1, i, st, hst, hcb => by
    have hst1 : (pollStep cb i st).socket_state ≠ SOCK_CONNECTED :=
      pollStep_ne hst (hcb i le_rfl (by omega))
    unfold pollLoop
    rw [if_neg hst1]
    exact pollLoop_timeout cb fuel (i + 1) _ hst1
      (fun j h1 h2 => hcb j (by omega) (by omega))

/-- `check_credentials` never touches the socket fields. -/
theorem check_credentials_preserves {st st1 : CtrlState} {http : Nat → HttpAttempt} {b : Bool}
    (h : check_credentials st http = .ok (b, st1)) :
    st1.socket_state = st.socket_state ∧ st1.hasWs = st.hasWs := by
  unfold check_credentials at h
  split at h
  · simp at h; obtain ⟨h1, h2⟩ := h; subst h2; exact ⟨rfl, rfl⟩
  · unfold login at h
    unfold loginParse at h
    repeat' split at h
    all_goals simp_all
    all_goals (obtain ⟨h1, h2⟩ := h; subst h2; simp)

/-- `open_wss_thread` never emits poll events. -/
theorem open_wss_thread_no_poll {env : ConnectEnv} {st : CtrlState} {b : Bool}
    {st1 : CtrlState} {evs : List WssEvent}
    (h : open_wss_thread env st = .ok (b, st1, evs)) :
    evs.count WssEvent.poll = 0 := by
  unfold open_wss_thread at h
  repeat' split at h
  all_goals simp_all
  all_goals (obtain ⟨h1, h2, h3⟩ := h; subst h3; decide)

/-- A successful `open_wss_thread` has created the socket, sent the
authentication and subscription frames, and started the thread, in that
order. -/
theorem open_wss_thread_true_evs {env : ConnectEnv} {st : CtrlState} {st1 : CtrlState}
    {evs : List WssEvent} (h : open_wss_thread env st = .ok (true, st1, evs)) :
    evs = setupOps ++ [WssEvent.startThread] := by
  unfold open_wss_thread at h
  repeat' split at h
  all_goals simp_all


/-- Building a device ignores the accumulator list in the state. -/
theorem buildDevice_devices_free (st : CtrlState) (ds : List Device) (r : Json) :
    buildDevice { st with devices := ds } r = buildDevice st r := rfl

/-- So does building a batch of devices. -/
theorem builtDevices_devices_free (st : CtrlState) (ds : List Device) :
    ∀ xs, builtDevices { st with devices := ds } xs = builtDevices st xs
  | [] => rfl
  | r :: rs => by
    unfold builtDevices
    rw [buildDevice_devices_free, builtDevices_devices_free st ds rs]

/-- The in-place append loop of `get_devices` equals building the batch
and appending it to the accumulator in one step. -/
theorem appendDevices_eq (st : CtrlState) :
    ∀ xs, appendDevices st xs =
      match builtDevices st xs with
      | .error e => .error e
      | .ok ds => .ok { st with devices := st.devices ++ ds } := by
  intro xs
  induction xs generalizing st with
  | nil => simp [appendDevices, builtDevices]
  | cons r rs ih =>
    unfold appendDevices builtDevices
    cases hb : buildDevice st r with
    | error e => simp
    | ok d =>
      simp only
      rw [ih, builtDevices_devices_free]
      cases builtDevices st rs with
      | error e => simp
      | ok ds => simp

/-- Characterization of a `get_devices` call whose response is truthy:
the returned list is the accumulator extended with the devices built
from the response items. -/
theorem get_devices_truthy_char {st : CtrlState} {env : Nat → HttpAttempt}
    {l : List Device} {st1 : CtrlState}
    (t : ((send_http env).1).truthy = true)
    (h : get_devices st env = .ok (l, st1)) :
    ∃ items xs ds, ((send_http env).1).getItem "result" = .ok items ∧
      items.iterElems = .ok xs ∧ builtDevices st xs = .ok ds ∧
      st1 = { st with devices := st.devices ++ ds } ∧ l = st1.devices := by
  unfold get_devices at h
  rw [t] at h
  simp only [if_true] at h
  split at h
  · exact absurd h (by simp)
  · next items hitems =>
    split at h
    · exact absurd h (by simp)
    · next xs hxs =>
      rw [appendDevices_eq] at h
      split at h
      · exact absurd h (by simp)
      · rename_i stApp happ
        split at happ
        · exact absurd happ (by simp)
        · rename_i ds hds
          simp at happ
          subst happ
          simp at h
          obtain ⟨hl, hst⟩ := h
          refine ⟨items, xs, ds, hitems, hxs, hds, hst.symm, ?_⟩
          rw [← hst]
          exact hl.symm

-- Claim theorems.

/-- C1: for the login response body
`{"result":{"_id":"u1","auth":{"apiKey":"k1"}}}` (HTTP 200), the claim
says `login()` returns true with `user_id == "u1"` and
`api_key == "k1"`.  The code instead returns false and leaves `api_key`
at `None` (while `user_id` is set to "u1"), because the guard tests for
the lowercase key "apikey" while the body — and the read on the next
source line — uses "apiKey". -/
theorem c1_login_rejects_valid_body :
    login demoState (fun _ => .resp 200 c1Body) =
      .ok (false, { demoState with user_id := some (.str "u1") }) ∧
    ({ demoState with user_id := some (.str "u1") } : CtrlState).api_key = none :=
  ⟨rfl, rfl⟩

/-- C2 (counterexample): the body
`{"result":{"_id":"u1","auth":{}}}` lacks `result.auth.apiKey`, yet
`login()` does not leave the stored credentials unchanged: it returns
false with `user_id` overwritten to "u1" (it was `None` before the
call), refuting the claim as stated. -/
theorem c2_login_counterexample :
    (Json.obj []).hasKey "apiKey" = .ok false ∧
    login demoState (fun _ => .resp 200 c2Body) =
      .ok (false, { demoState with user_id := some (.str "u1") }) ∧
    demoState.user_id = none ∧
    ({ demoState with user_id := some (.str "u1") } : CtrlState) ≠ demoState :=
  ⟨rfl, rfl, rfl, fun h => Option.noConfusion (congrArg CtrlState.user_id h)⟩

/-- C2 (amended): for a 200 response whose body is an object with a
`result` object, `login()` returns false in both failure shapes, but
the stored credentials are untouched only when `result._id` is absent;
when `result._id` is present and `result.auth` is an object lacking the
lowercase key "apikey", `user_id` is overwritten with `result._id`
(`api_key` stays unchanged). -/
theorem c2_login_failure_amended (st : CtrlState) (rfields : List (String × Json)) :
    (objLookup rfields "_id" = none →
      login st (fun _ => .resp 200 (.obj [("result", .obj rfields)])) = .ok (false, st)) ∧
    (∀ uid afields, objLookup rfields "_id" = some uid →
      objLookup rfields "auth" = some (.obj afields) →
      objLookup afields "apikey" = none →
      login st (fun _ => .resp 200 (.obj [("result", .obj rfields)])) =
        .ok (false, { st with user_id := some uid })) := by
  have hsend : send_http (fun _ => .resp 200 (.obj [("result", .obj rfields)])) =
      (.obj [("result", .obj rfields)], 1) := rfl
  constructor
  · intro hid
    unfold login
    rw [hsend]
    simp [loginParse, Json.getItem, Json.hasKey, objLookup, hid]
  · intro uid afields hid hauth hak
    unfold login
    rw [hsend]
    simp [loginParse, Json.getItem, Json.hasKey, objLookup, hid, hauth, hak]

/-- C2 (witness): the amended theorem applied to the spec scenario
`{"result":{}}` (credentials untouched) and to the counterexample body
(`user_id` overwritten). -/
theorem c2_witness :
    login demoState (fun _ => .resp 200 (.obj [("result", .obj [])])) = .ok (false, demoState) ∧
    login demoState (fun _ => .resp 200 c2Body) =
      .ok (false, { demoState with user_id := some (.str "u1") }) :=
  ⟨(c2_login_failure_amended demoState []).1 rfl,
   (c2_login_failure_amended demoState [("_id", .str "u1"), ("auth", .obj [])]).2
     (.str "u1") [] rfl rfl rfl⟩

/-- C3: on HTTP 401 `send_http` does return the explicit
authentication-failure dict after exactly one attempt (no retry), as
the claim says — but `login()` then raises `KeyError("result")` on that
dict rather than returning false to its caller, contradicting the
second half of the claim. -/
theorem c3_401_no_retry_but_login_raises :
    send_http (fun _ => .resp 401 .null) = (fail401, 1) ∧
    login demoState (fun _ => .resp 401 .null) = .error (.keyError "result") :=
  ⟨rfl, rfl⟩

/-- C4: when every one of the first `N_RETRY` attempts is a non-200,
non-401 response or a network error, `send_http` performs exactly
`N_RETRY` (6) attempts and returns the generic failure dict, which
differs from the 401 authentication-failure dict. -/
theorem c4_send_http_exhausts_retries (env : Nat → HttpAttempt)
    (h : ∀ i, i < N_RETRY → retryable (env i) = true) :
    send_http env = (failRetries, N_RETRY) ∧ failRetries ≠ fail401 := by
  refine ⟨?_, failRetries_ne_fail401⟩
  have := sendHttpAux_all_retryable env N_RETRY 0 (fun i h1 h2 => h i (by omega))
  simpa [send_http] using this

/-- C4 (witness): all attempts answer HTTP 500. -/
theorem c4_witness :
    send_http (fun _ => .resp 500 .null) = (failRetries, N_RETRY) ∧
    failRetries ≠ fail401 :=
  c4_send_http_exhausts_retries (fun _ => .resp 500 .null) (fun _ _ => rfl)

/-- C5: `connect_wss` called while `socket_state` is already Connected
returns true immediately with the state record unchanged (socket
handle, thread handle, `sent_counter`, `socket_state` all as before)
and an empty event trace (no socket opened, no thread started). -/
theorem c5_connect_wss_noop_when_connected (env : ConnectEnv) (st : CtrlState)
    (h : st.socket_state = SOCK_CONNECTED) :
    connect_wss env st = .ok (true, st, []) := by
  unfold connect_wss
  rw [if_pos h]

/-- C5 (witness): a connected controller state. -/
theorem c5_witness :
    connect_wss demoConnEnv connectedState = .ok (true, connectedState, []) :=
  c5_connect_wss_noop_when_connected demoConnEnv connectedState rfl

/-- C6: `connect_wss` enters at most 15 poll iterations (0.5 s sleeps in
the source, modelled as iteration count); a `WebSocketException` during
socket setup makes it return false with `socket_state` forced to
`SOCK_ERROR`; and when no callback ever reports the Connected
transition within the 15 iterations it returns false (timeout). -/
theorem c6_connect_wss_bounds (env : ConnectEnv) (st : CtrlState) :
    (∀ b st1 evs, connect_wss env st = .ok (b, st1, evs) →
      evs.count WssEvent.poll ≤ 15) ∧
    (∀ st1, st.socket_state ≠ SOCK_CONNECTED →
      check_credentials st env.http = .ok (true, st1) →
      ((∀ k, env.setupFail = some k → k < 3 →
          ∃ st2 evs, connect_wss env st = .ok (false, st2, evs) ∧
            st2.socket_state = SOCK_ERROR) ∧
        (env.setupFail = none → env.threadAlive = true →
          (∀ i, i < 15 → env.cb i ≠ some SOCK_CONNECTED) →
          ∃ st2 evs, connect_wss env st = .ok (false, st2, evs)))) := by
  constructor
  · intro b st1 evs hc
    unfold connect_wss at hc
    split at hc
    · simp at hc
      obtain ⟨_, _, hevs⟩ := hc
      subst hevs
      decide
    · split at hc
      · exact absurd hc (by simp)
      · rename_i ok stA evsA hopen
        split at hc
        · simp at hc
          obtain ⟨_, _, hevs⟩ := hc
          subst hevs
          rw [List.count_append]
          have h1 := open_wss_thread_no_poll hopen
          have h2 := pollLoop_count env.cb 15 0 stA
          omega
        · simp at hc
          obtain ⟨_, _, hevs⟩ := hc
          subst hevs
          have h1 := open_wss_thread_no_poll hopen
          omega
  · intro st1 hns hcred
    constructor
    · intro k hsf hk3
      interval_cases k
      · refine ⟨{ st1 with socket_state := SOCK_ERROR }, [], ?_, rfl⟩
        simp [connect_wss, open_wss_thread, hns, hcred, hsf, setupOps]
      · refine ⟨{ st1 with hasWs := true, socket_state := SOCK_ERROR },
                setupOps.take 1, ?_, rfl⟩
        simp [connect_wss, open_wss_thread, hns, hcred, hsf, setupOps]
      · refine ⟨{ st1 with hasWs := true, socket_state := SOCK_ERROR },
                setupOps.take 2, ?_, rfl⟩
        simp [connect_wss, open_wss_thread, hns, hcred, hsf, setupOps]
    · intro hsf hta hcb
      have hpre := check_credentials_preserves hcred
      have hst2 : ({ st1 with hasWs := true, hasThread := true } : CtrlState).socket_state
          ≠ SOCK_CONNECTED := by
        simpa [hpre.1] using hns
      have hfalse := pollLoop_timeout env.cb 15 0 _ hst2
        (fun j h1 h2 => hcb j (by omega))
      refine ⟨(pollLoop env.cb 0 15 { st1 with hasWs := true, hasThread := true }).2.1,
              (setupOps ++ [WssEvent.startThread]) ++
                (pollLoop env.cb 0 15 { st1 with hasWs := true, hasThread := true }).2.2,
              ?_⟩
      simp [connect_wss, open_wss_thread, hns, hcred, hsf, hta, hfalse]

/-- C6 (witness): a setup exception forces `SOCK_ERROR`; silent
callbacks time the poll loop out; poll events stay within the bound. -/
theorem c6_witness :
    (List.count WssEvent.poll [WssEvent.openSocket] ≤ 15) ∧
    (∃ st2 evs, connect_wss errorConnEnv keyedState = .ok (false, st2, evs) ∧
      st2.socket_state = SOCK_ERROR) ∧
    (∃ st2 evs, connect_wss timeoutConnEnv keyedState = .ok (false, st2, evs)) :=
  ⟨(c6_connect_wss_bounds errorConnEnv keyedState).1 false
      { keyedState with hasWs := true, socket_state := SOCK_ERROR }
      [WssEvent.openSocket] rfl,
   (((c6_connect_wss_bounds errorConnEnv keyedState).2 keyedState (by decide) rfl).1 1 rfl
      (by omega)),
   (((c6_connect_wss_bounds timeoutConnEnv keyedState).2 keyedState (by decide) rfl).2 rfl rfl
      (fun i _ => by simp [timeoutConnEnv, demoConnEnv]))⟩

/-- C7: whenever `connect_wss`, started from a non-connected state,
returns true, the authentication frame and the subscription frame were
both sent strictly before the background read-loop thread was started
(`authenticate()` and `subscribe()` are called synchronously before
`Thread.start()` in `open_wss_thread`). -/
theorem c7_auth_and_subscribe_before_thread (env : ConnectEnv) (st : CtrlState)
    (h : st.socket_state ≠ SOCK_CONNECTED) :
    ∀ st1 evs, connect_wss env st = .ok (true, st1, evs) →
      beforeThreadStart .sendAuth evs = true ∧
      beforeThreadStart .sendSubscribe evs = true := by
  intro st1 evs hc
  unfold connect_wss at hc
  rw [if_neg h] at hc
  split at hc
  · exact absurd hc (by simp)
  · rename_i ok stA evsA hopen
    split at hc
    · rename_i hok
      subst hok
      simp at hc
      obtain ⟨hst, hst1eq, hevs⟩ := hc
      rw [open_wss_thread_true_evs hopen] at hevs
      subst hevs
      constructor <;> simp [beforeThreadStart, setupOps]
    · rename_i hok
      exact absurd hc (by simp)

/-- C7 (witness): a successful fresh connect; both frames precede the
thread start in its trace. -/
theorem c7_witness :
    beforeThreadStart WssEvent.sendAuth
      [WssEvent.openSocket, .sendAuth, .sendSubscribe, .startThread, .poll] = true ∧
    beforeThreadStart WssEvent.sendSubscribe
      [WssEvent.openSocket, .sendAuth, .sendSubscribe, .startThread, .poll] = true :=
  c7_auth_and_subscribe_before_thread demoConnEnv keyedState (by decide)
    { keyedState with hasWs := true, hasThread := true, socket_state := SOCK_CONNECTED }
    [WssEvent.openSocket, .sendAuth, .sendSubscribe, .startThread, .poll] rfl

/-- C8: once `sent_counter` has reached 5, the next `publish_wss` call
first resets the counter to 0, closes the socket and sets
`socket_state` to `SOCK_CLOSE`, and only then runs its retry loop (the
`forceClose` event precedes every event of the loop); and a plain
publish in the Connected state with a working transport increments the
counter by exactly 1 and returns true, so five such calls from 0 do
reach the threshold. -/
theorem c8_publish_wss_force_close (env : PublishEnv) (st : CtrlState) :
    (5 ≤ st.sent_counter → st.hasWs = true →
      publish_wss env st =
        match publishLoop env 0 N_RETRY
            { st with sent_counter := 0, socket_state := SOCK_CLOSE } with
        | .error e => .error e
        | .ok (b, st2, evs) => .ok (b, st2, WssEvent.forceClose :: evs)) ∧
    (st.socket_state = SOCK_CONNECTED → st.hasWs = true → st.sent_counter < 5 →
      env.sendClosed 0 = false →
      publish_wss env st =
        .ok (true, { st with sent_counter := st.sent_counter + 1 }, [.sendTry])) := by
  constructor
  · intro h5 hw
    unfold publish_wss
    rw [if_pos h5, if_pos hw]
  · intro hconn hw h5 hsc
    unfold publish_wss
    rw [if_neg (by omega)]
    show publishLoop env 0 (5 + 1) st = _
    unfold publishLoop
    rw [if_pos hconn, if_pos hw, hsc]
    simp

/-- C8 (witness): a controller with `sent_counter = 5` is force-closed
before the loop; one with `sent_counter = 0` just sends and counts. -/
theorem c8_witness :
    publish_wss demoPubEnv fullCounterState =
      (match publishLoop demoPubEnv 0 N_RETRY
          { fullCounterState with sent_counter := 0, socket_state := SOCK_CLOSE } with
       | .error e => .error e
       | .ok (b, st2, evs) => .ok (b, st2, WssEvent.forceClose :: evs)) ∧
    publish_wss demoPubEnv connectedState =
      .ok (true, { connectedState with sent_counter := connectedState.sent_counter + 1 },
           [.sendTry]) :=
  ⟨(c8_publish_wss_force_close demoPubEnv fullCounterState).1 (by decide) rfl,
   (c8_publish_wss_force_close demoPubEnv connectedState).2 rfl rfl (by decide) rfl⟩

/-- C9: both failure values of `send_http` — retry exhaustion and the
401 dict — are truthy non-empty dicts without a "result" key, so a
`get_devices` call receiving one skips the empty-list error branch and
raises `KeyError("result")` instead. -/
theorem c9_http_failure_values_raise_keyerror (st : CtrlState) (env : Nat → HttpAttempt) :
    ((∀ i, i < N_RETRY → retryable (env i) = true) →
      (send_http env).1 = failRetries ∧ failRetries.truthy = true ∧
      failRetries.hasKey "result" = .ok false ∧
      get_devices st env = .error (.keyError "result")) ∧
    (∀ k body, k < N_RETRY → (∀ j, j < k → retryable (env j) = true) →
      env k = .resp 401 body →
      (send_http env).1 = fail401 ∧ fail401.truthy = true ∧
      fail401.hasKey "result" = .ok false ∧
      get_devices st env = .error (.keyError "result")) := by
  constructor
  · intro h
    have hs : send_http env = (failRetries, N_RETRY) := by
      have := sendHttpAux_all_retryable env N_RETRY 0 (fun i h1 h2 => h i (by omega))
      simpa [send_http] using this
    refine ⟨by rw [hs], rfl, rfl, ?_⟩
    unfold get_devices
    rw [hs]
    simp [failRetries, Json.truthy, Json.getItem, objLookup]
  · intro k body hk hpre h401
    have hs : send_http env = (fail401, k + 1) := by
      have := sendHttpAux_reaches_401 env body k N_RETRY 0 (by omega)
        (fun j h1 h2 => hpre j (by omega)) (by simpa using h401)
      simpa [send_http] using this
    refine ⟨by rw [hs], rfl, rfl, ?_⟩
    unfold get_devices
    rw [hs]
    simp [fail401, Json.truthy, Json.getItem, objLookup]

/-- C9 (witness): exhaustion under constant 500s, and an immediate
401. -/
theorem c9_witness :
    ((send_http (fun _ => .resp 500 .null)).1 = failRetries ∧ failRetries.truthy = true ∧
      failRetries.hasKey "result" = .ok false ∧
      get_devices demoState (fun _ => .resp 500 .null) = .error (.keyError "result")) ∧
    ((send_http (fun _ => .resp 401 .null)).1 = fail401 ∧ fail401.truthy = true ∧
      fail401.hasKey "result" = .ok false ∧
      get_devices demoState (fun _ => .resp 401 .null) = .error (.keyError "result")) :=
  ⟨(c9_http_failure_values_raise_keyerror demoState (fun _ => .resp 500 .null)).1
      (fun _ _ => rfl),
   (c9_http_failure_values_raise_keyerror demoState (fun _ => .resp 401 .null)).2
      0 .null (by decide) (fun j hj => absurd hj (by omega)) rfl⟩

/-- C10: the device list is a persistent accumulator that is never
cleared — after two calls that both take the truthy branch, the second
returned list is the first returned list followed by the descriptors
built from the second response. -/
theorem c10_get_devices_accumulates (st : CtrlState) (env1 env2 : Nat → HttpAttempt)
    (l1 l2 : List Device) (st1 st2 : CtrlState)
    (h1 : get_devices st env1 = .ok (l1, st1))
    (t1 : ((send_http env1).1).truthy = true)
    (h2 : get_devices st1 env2 = .ok (l2, st2))
    (t2 : ((send_http env2).1).truthy = true) :
    ∃ items xs ds, ((send_http env2).1).getItem "result" = .ok items ∧
      items.iterElems = .ok xs ∧ builtDevices st1 xs = .ok ds ∧
      l2 = l1 ++ ds := by
  obtain ⟨i1, x1, d1, _, _, _, hst1, hl1⟩ := get_devices_truthy_char t1 h1
  obtain ⟨i2, x2, d2, hi2, hx2, hd2, hst2, hl2⟩ := get_devices_truthy_char t2 h2
  refine ⟨i2, x2, d2, hi2, hx2, hd2, ?_⟩
  rw [hl2, hst2, hl1]

/-- C10 (witness): the spec scenario device body served twice — the
second call returns the descriptor duplicated. -/
theorem c10_witness :
    ∃ items xs ds,
      ((send_http (fun _ => .resp 200 demoDeviceBody)).1).getItem "result" = .ok items ∧
      items.iterElems = .ok xs ∧
      builtDevices { demoState with devices := [demoDevice] } xs = .ok ds ∧
      [demoDevice, demoDevice] = [demoDevice] ++ ds :=
  c10_get_devices_accumulates demoState (fun _ => .resp 200 demoDeviceBody)
    (fun _ => .resp 200 demoDeviceBody) [demoDevice] [demoDevice, demoDevice]
    { demoState with devices := [demoDevice] }
    { demoState with devices := [demoDevice, demoDevice] }
    rfl rfl rfl rfl

end Ryobi
